import Mathlib

/-!
Shallow embedding of the recipe-app core: the Record Mapper applied on every
read path (recipe list page and recipe detail page), the create path of the
new-recipe form (`handleSubmit`), the `getById` read outcome classification,
the auth/session store (`AuthProvider` with its `onAuthStateChanged`
subscription), and the `signup` flow that creates a provider session and then
writes a profile record.

JavaScript conventions are embedded explicitly: `x || dflt` on a string field
substitutes the default exactly when the field is absent or the empty string
(the falsy strings); `x ?? dflt` on a numeric field substitutes only when the
field is absent (null/undefined); an array read as `x || []` defaults only
when absent, since every array value is truthy.
-/

namespace RecipeApp

/-- An ingredient as stored on a recipe document:
`{name: string, quantity: number, unit: string}`. -/
structure Ingredient where
  name : String
  quantity : Int
  unit : String
deriving DecidableEq, Repr

/-- The `createdAt` value found on a raw document: either a store timestamp
(the only shape the mapper converts) or some other value. -/
inductive DocTime where
  | timestamp (t : Int)
  | otherValue
deriving DecidableEq, Repr

/-- A raw schemaless document from the `recipes` collection: every field the
mapper reads may be absent. -/
structure RawDoc where
  name : Option String
  ingredients : Option (List Ingredient)
  instructions : Option (List String)
  cookingTime : Option Int
  servings : Option Int
  userId : Option String
  imageUrl : Option String
  categories : Option (List String)
  createdAt : Option DocTime
deriving DecidableEq, Repr

/-- The typed in-memory `Recipe` produced by the mapper: all fields populated,
only `createdAt` stays optional. -/
structure Recipe where
  id : String
  name : String
  ingredients : List Ingredient
  instructions : List String
  cookingTime : Int
  servings : Int
  userId : String
  imageUrl : String
  categories : List String
  createdAt : Option Int
deriving DecidableEq, Repr

/-- JavaScript `v || dflt` on an optional string field: the default is used
when the field is absent or is the empty string. -/
def jsStringOr (v : Option String) (dflt : String) : String :=
  match v with
  | none => dflt
  | some s => if s = "" then dflt else s

/-- The mapper's `createdAt` conversion: `data.createdAt instanceof Timestamp
? data.createdAt.toDate() : undefined` — only a store timestamp is converted,
anything else becomes absent. -/
def mapCreatedAt (c : Option DocTime) : Option Int :=
  match c with
  | some (.timestamp t) => some t
  | _ => none

/-- The Record Mapper: the document-to-Recipe shaping performed identically on
the list page (`fetchRecipes`) and the detail page, with each field defaulted
as in the source (`data.name || 'Untitled Recipe'`, `data.cookingTime ?? 0`,
`data.ingredients || []`, and `data.createdAt instanceof Timestamp ?
data.createdAt.toDate() : undefined`). A pure total function. -/
def mapRecipe (recipeId : String) (d : RawDoc) : Recipe :=
  { id := recipeId
    name := jsStringOr d.name "Untitled Recipe"
    ingredients := d.ingredients.getD []
    instructions := d.instructions.getD []
    cookingTime := d.cookingTime.getD 0
    servings := d.servings.getD 0
    userId := jsStringOr d.userId "unknown"
    imageUrl := jsStringOr d.imageUrl ""
    categories := d.categories.getD []
    createdAt := mapCreatedAt d.createdAt }

/-- The stored-document equivalent of an already-mapped Recipe: every field
present with the recipe's value. A `createdAt` date is represented as a store
timestamp, which is how the document store records a written date value. -/
def docOfRecipe (r : Recipe) : RawDoc :=
  { name := some r.name
    ingredients := some r.ingredients
    instructions := some r.instructions
    cookingTime := some r.cookingTime
    servings := some r.servings
    userId := some r.userId
    imageUrl := some r.imageUrl
    categories := some r.categories
    createdAt := r.createdAt.map DocTime.timestamp }

/-- The new-recipe form state at submission time: `cookingTime`/`servings`
are `Option Int` because the form keeps them as `number | ''` and the code
tests `=== ''` (here `none`); `categories` is the raw comma-separated text. -/
structure RecipeDraft where
  recipeName : String
  ingredients : List Ingredient
  instructions : List String
  cookingTime : Option Int
  servings : Option Int
  imageUrl : String
  categories : String
deriving DecidableEq, Repr

/-- JavaScript falsiness of one ingredient's required fields, as tested by
`!ing.name || !ing.quantity || !ing.unit`: an empty name, a quantity of
exactly 0, or an empty unit. -/
def ingredientFalsy (i : Ingredient) : Bool :=
  i.name == "" || i.quantity == 0 || i.unit == ""

/-- The client-side validation guard of `handleSubmit`: true exactly when the
submission is rejected before any insert (`!recipeName || ingredients.some(...)
|| instructions.some((inst) => !inst) || cookingTime === '' ||
servings === ''`). -/
def validationFails (d : RecipeDraft) : Bool :=
  d.recipeName == "" ||
  d.ingredients.any ingredientFalsy ||
  d.instructions.any (fun inst => inst == "") ||
  d.cookingTime.isNone ||
  d.servings.isNone

/-- The document sent to the store's insert on a successful submission:
optional fields are genuinely absent (`none`) when stripped. -/
structure RecipeFormData where
  name : String
  ingredients : List Ingredient
  instructions : List String
  cookingTime : Int
  servings : Int
  userId : String
  imageUrl : Option String
  categories : Option (List String)
  createdAt : Int
deriving DecidableEq, Repr

/-- The create path's only failure before reaching the store. -/
inductive SubmitError where
  | validationError
deriving DecidableEq, Repr

/-- JavaScript string `trim()`: whitespace removed from both ends. Written
structurally over the character list so it evaluates by kernel reduction. -/
def jsTrim (s : String) : String :=
  String.mk
    (((s.data.dropWhile Char.isWhitespace).reverse.dropWhile
        Char.isWhitespace).reverse)

/-- JavaScript `split(',')` on the character list: splits at every comma,
keeping empty pieces, so the empty string yields `[""]`. -/
def splitCommaAux : List Char → List Char → List String
  | [], acc => [String.mk acc.reverse]
  | c :: cs, acc =>
      if c = ',' then String.mk acc.reverse :: splitCommaAux cs []
      else splitCommaAux cs (c :: acc)

/-- JavaScript `s.split(',')`. -/
def splitComma (s : String) : List String :=
  splitCommaAux s.data []

/-- The category text parsed as in the source:
`categories.split(',').map((cat) => cat.trim()).filter((cat) => cat !== '')`. -/
def parsedCategories (s : String) : List String :=
  ((splitComma s).map jsTrim).filter (fun cat => cat != "")

/-- The create operation (`handleSubmit` of the new-recipe page) as a pure
function of the submitted draft, the current user's uid and the current time:
it either rejects with a validation error (nothing is sent to the store) or
produces the single document handed to the store insert. Field by field it
follows the source: ingredients filtered by `ing.name && ing.quantity &&
ing.unit`, instructions filtered by `inst.trim() !== ''`, `imageUrl` added
only when its trimmed value is non-empty, `categories` added only when the
parsed list is non-empty, `createdAt` set to the time of the call. -/
def handleSubmit (currentUid : String) (now : Int) (d : RecipeDraft) :
    Except SubmitError RecipeFormData :=
  if validationFails d then
    .error .validationError
  else
    .ok
      { name := d.recipeName
        ingredients := d.ingredients.filter (fun i => !(ingredientFalsy i))
        instructions := d.instructions.filter (fun inst => jsTrim inst != "")
        cookingTime := d.cookingTime.getD 0
        servings := d.servings.getD 0
        userId := currentUid
        imageUrl := if jsTrim d.imageUrl != "" then some (jsTrim d.imageUrl) else none
        categories :=
          if parsedCategories d.categories != [] then
            some (parsedCategories d.categories)
          else none
        createdAt := now }

/-- True when the create path rejected the draft with a validation error. -/
def isValidationError (r : Except SubmitError RecipeFormData) : Bool :=
  match r with
  | .error .validationError => true
  | .ok _ => false

/-- Modelled from the spec: the required-field constraint the specification
states for `create` — name non-empty; every ingredient has non-empty
name/unit and quantity strictly positive; every instruction step non-empty
after trimming; cookingTime and servings both present. Kept separate from the
code's own guard `validationFails` so the two can be compared. -/
def specRequiredOk (d : RecipeDraft) : Bool :=
  d.recipeName != "" &&
  d.ingredients.all
    (fun i => i.name != "" && i.unit != "" && decide (0 < i.quantity)) &&
  d.instructions.all (fun inst => jsTrim inst != "") &&
  d.cookingTime.isSome &&
  d.servings.isSome

/-- The amended required-field constraint violation, matching the code's
truthiness checks: name empty, or some ingredient with empty name, quantity
exactly 0, or empty unit, or some instruction step equal to the empty string
(no trimming), or cookingTime or servings absent. -/
def amendedRequiredViolated (d : RecipeDraft) : Bool :=
  d.recipeName == "" ||
  d.ingredients.any
    (fun i => i.name == "" || i.quantity == 0 || i.unit == "") ||
  d.instructions.any (fun inst => inst == "") ||
  d.cookingTime.isNone ||
  d.servings.isNone

/-- Outcome of the document store's get-by-id call, as seen by the page:
a snapshot that exists, a snapshot that does not, or a thrown connectivity
failure. -/
inductive GetDocResult where
  | found (d : RawDoc)
  | absent
  | storeFailure
deriving DecidableEq, Repr

/-- Outcome of `getById` as surfaced to the caller. -/
inductive GetByIdOutcome where
  | ok (r : Recipe)
  | notFoundError
  | repositoryError
deriving DecidableEq, Repr

/-- The detail page's fetch: `getDoc`, then `if (!docSnap.exists())
notFound()` (the not-found outcome), a thrown store failure surfaced as the
repository-level failure, and otherwise the mapper applied to the snapshot. -/
def getById (recipeId : String) (res : GetDocResult) : GetByIdOutcome :=
  match res with
  | .found d => .ok (mapRecipe recipeId d)
  | .absent => .notFoundError
  | .storeFailure => .repositoryError

/-- A provider identity as consumed by the views: `currentUser.uid` and
`currentUser.email`. -/
structure FirebaseUser where
  uid : String
  email : String
deriving DecidableEq, Repr

/-- Phases of the session store as the spec names them. -/
inductive SessionPhase where
  | unresolved
  | anonymous
  | authenticated (uid : String)
deriving DecidableEq, Repr

/-- The `AuthProvider` state: `currentUser` and the `loading` flag. -/
structure AuthStoreState where
  currentUser : Option String
  loading : Bool
deriving DecidableEq, Repr

/-- The provider's initial state: `useState<User | null>(null)` and
`useState(true)` for loading. -/
def initialAuthStore : AuthStoreState :=
  { currentUser := none, loading := true }

/-- One delivery of the `onAuthStateChanged` subscription:
`setCurrentUser(user); setLoading(false)`, regardless of the prior state. -/
def onSessionChange (_s : AuthStoreState) (user : Option String) :
    AuthStoreState :=
  { currentUser := user, loading := false }

/-- The store state after a sequence of provider session callbacks, starting
from the initial state. The callbacks are the only writers of this state. -/
def runAuthStore (events : List (Option String)) : AuthStoreState :=
  events.foldl onSessionChange initialAuthStore

/-- The phase a consumer reads off the store: while `loading` nothing is
known (unresolved); afterwards an absent user means anonymous and a present
user means authenticated with that identity. -/
def sessionPhase (s : AuthStoreState) : SessionPhase :=
  if s.loading then .unresolved
  else
    match s.currentUser with
    | none => .anonymous
    | some uid => .authenticated uid

/-- A provider-side credential rejection, message surfaced verbatim. -/
structure AuthFailure where
  message : String
deriving DecidableEq, Repr

/-- A document-store write failure. -/
structure StoreFailure where
  message : String
deriving DecidableEq, Repr

/-- What `signup` can throw to its caller: the provider rejection of the
account creation, or the store failure of the profile-record write. -/
inductive SignupError where
  | auth (e : AuthFailure)
  | profileWrite (e : StoreFailure)
deriving DecidableEq, Repr

/-- The identity provider's session state, as owned by the provider itself:
which identity (if any) currently has a session. -/
structure ProviderState where
  currentSession : Option String
deriving DecidableEq, Repr

/-- The `signup` flow: `createUserWithEmailAndPassword` (on success the
provider begins a session for the new identity) followed by the profile
`setDoc` keyed by the new uid; any error is re-thrown to the caller, and no
code path deletes the created session. Both external calls are passed in as
their outcomes. -/
def signup (st : ProviderState)
    (createUserResult : Except AuthFailure FirebaseUser)
    (setDocResult : String → Except StoreFailure Unit) :
    ProviderState × Except SignupError Unit :=
  match createUserResult with
  | .error e => (st, .error (.auth e))
  | .ok user =>
      let st' : ProviderState := { currentSession := some user.uid }
      match setDocResult user.uid with
      | .error e => (st', .error (.profileWrite e))
      | .ok _ => (st', .ok ())

/-- The detail page's ownership test:
`currentUser && currentUser.uid === recipe.userId`; the edit affordance is
rendered exactly when this is true. -/
def isOwner (currentUser : Option FirebaseUser) (r : Recipe) : Bool :=
  match currentUser with
  | none => false
  | some u => u.uid == r.userId

/-- A draft whose only departure from the spec's required-field constraint is
an ingredient with a strictly negative quantity. -/
def draftNegQty : RecipeDraft :=
  { recipeName := "Bread"
    ingredients := [{ name := "Flour", quantity := -1, unit := "g" }]
    instructions := ["Mix"]
    cookingTime := some 10
    servings := some 2
    imageUrl := ""
    categories := "" }

/-- A draft whose only departure from the spec's required-field constraint is
an instruction step that is blank after trimming (a single space). -/
def draftBlankStep : RecipeDraft :=
  { recipeName := "Bread"
    ingredients := [{ name := "Flour", quantity := 1, unit := "g" }]
    instructions := [" "]
    cookingTime := some 10
    servings := some 2
    imageUrl := ""
    categories := "" }

/-- A draft containing an ingredient of quantity 0, otherwise complete. -/
def draftQtyZero : RecipeDraft :=
  { recipeName := "Salted Soup"
    ingredients := [{ name := "Salt", quantity := 0, unit := "g" }]
    instructions := ["Boil water"]
    cookingTime := some 10
    servings := some 2
    imageUrl := ""
    categories := "" }

/-- A draft containing the ingredient quantity 5, unit "g", name "Salt". -/
def draftSalt : RecipeDraft :=
  { recipeName := "Salted Soup"
    ingredients := [{ name := "Salt", quantity := 5, unit := "g" }]
    instructions := ["Boil water"]
    cookingTime := some 10
    servings := some 2
    imageUrl := ""
    categories := "" }

/-- A raw document with every field absent. -/
def emptyRawDoc : RawDoc :=
  { name := none, ingredients := none, instructions := none,
    cookingTime := none, servings := none, userId := none,
    imageUrl := none, categories := none, createdAt := none }

/-- A raw document mixing present, falsy and absent fields. -/
def sampleRawDoc : RawDoc :=
  { name := some "", ingredients := some [{ name := "Salt", quantity := 5, unit := "g" }],
    instructions := none, cookingTime := some 0, servings := none,
    userId := some "owner-1", imageUrl := none, categories := none,
    createdAt := some (.timestamp 100) }

/-- A raw document whose string fields are present but empty and whose
numeric fields are present and equal to 0. -/
def falsyRawDoc : RawDoc :=
  { name := some "", ingredients := none, instructions := none,
    cookingTime := some 0, servings := some 0, userId := some "",
    imageUrl := some "", categories := none, createdAt := none }

/-- Defaulting a falsy string and defaulting the result again agree: the
mapper's string shaping stabilises after one application. -/
theorem jsStringOr_some_self (v : Option String) (dflt : String) :
    jsStringOr (some (jsStringOr v dflt)) dflt = jsStringOr v dflt := by
  rcases v with _ | s
  · by_cases h : dflt = "" <;> simp [jsStringOr, h]
  · by_cases hs : s = ""
    · by_cases h : dflt = "" <;> simp [jsStringOr, hs, h]
    · simp [jsStringOr, hs]

/-- Converting a mapped `createdAt` back to a store timestamp and mapping it
again is stable. -/
theorem mapCreatedAt_map_timestamp (c : Option DocTime) :
    mapCreatedAt ((mapCreatedAt c).map DocTime.timestamp) = mapCreatedAt c := by
  cases c with
  | none => rfl
  | some dt => cases dt <;> rfl

/-- Once the loading flag is down, no further session callback raises it. -/
theorem foldl_onSessionChange_loading (es : List (Option String)) :
    ∀ s : AuthStoreState, s.loading = false →
      (es.foldl onSessionChange s).loading = false := by
  induction es with
  | nil => intro s h; exact h
  | cons e es ih => intro s _; exact ih _ rfl

/-- A draft that passes the code's validation guard has no falsy ingredient,
so the submit-time ingredient filter keeps the whole list. -/
theorem filter_ingredients_of_valid (d : RecipeDraft)
    (h : validationFails d = false) :
    d.ingredients.filter (fun i => !(ingredientFalsy i)) = d.ingredients := by
  rw [List.filter_eq_self]
  intro a ha
  by_contra hfa
  have hany : d.ingredients.any ingredientFalsy = true :=
    List.any_eq_true.mpr ⟨a, ha, by simpa using hfa⟩
  have : validationFails d = true := by simp [validationFails, hany]
  rw [this] at h
  exact Bool.noConfusion h

/-- C2: for every raw document read through the list or detail path, the
Record Mapper fills each missing field with its documented default —
name with "Untitled Recipe", ingredients/instructions/categories with the
empty sequence, cookingTime/servings with 0, userId with "unknown", imageUrl
with the empty string. No field of the resulting `Recipe` is optional except
`createdAt`, which the `Recipe` structure records by construction. -/
theorem mapper_missing_field_defaults :
    ∀ (recipeId : String) (d : RawDoc),
      (d.name = none → (mapRecipe recipeId d).name = "Untitled Recipe") ∧
      (d.ingredients = none → (mapRecipe recipeId d).ingredients = []) ∧
      (d.instructions = none → (mapRecipe recipeId d).instructions = []) ∧
      (d.cookingTime = none → (mapRecipe recipeId d).cookingTime = 0) ∧
      (d.servings = none → (mapRecipe recipeId d).servings = 0) ∧
      (d.userId = none → (mapRecipe recipeId d).userId = "unknown") ∧
      (d.imageUrl = none → (mapRecipe recipeId d).imageUrl = "") ∧
      (d.categories = none → (mapRecipe recipeId d).categories = []) := by
  intro recipeId d
  refine ⟨?_, ?_, ?_, ?_, ?_, ?_, ?_, ?_⟩ <;>
    · intro h
      simp [mapRecipe, jsStringOr, h]

/-- Witness for C2: the all-absent document maps to the fully-defaulted
Recipe, exactly as the spec's example `{name:"Soup"}` generalises. -/
theorem mapper_missing_field_defaults_witness :
    (mapRecipe "r1" emptyRawDoc).name = "Untitled Recipe" ∧
    (mapRecipe "r1" emptyRawDoc).ingredients = [] ∧
    (mapRecipe "r1" emptyRawDoc).instructions = [] ∧
    (mapRecipe "r1" emptyRawDoc).cookingTime = 0 ∧
    (mapRecipe "r1" emptyRawDoc).servings = 0 ∧
    (mapRecipe "r1" emptyRawDoc).userId = "unknown" ∧
    (mapRecipe "r1" emptyRawDoc).imageUrl = "" ∧
    (mapRecipe "r1" emptyRawDoc).categories = [] := by
  obtain ⟨h1, h2, h3, h4, h5, h6, h7, h8⟩ :=
    mapper_missing_field_defaults "r1" emptyRawDoc
  exact ⟨h1 rfl, h2 rfl, h3 rfl, h4 rfl, h5 rfl, h6 rfl, h7 rfl, h8 rfl⟩

/-- C7: the Record Mapper is total — a pure function on arbitrary raw
documents (every field may be absent) whose result always carries concrete
sequences for the array fields, with absent arrays coerced to the empty
sequence; it is defined without any effect or failure path. -/
theorem mapper_total_on_malformed_docs :
    ∀ (recipeId : String) (d : RawDoc),
      (mapRecipe recipeId d).ingredients = d.ingredients.getD [] ∧
      (mapRecipe recipeId d).instructions = d.instructions.getD [] ∧
      (mapRecipe recipeId d).categories = d.categories.getD [] := by
  intro recipeId d
  exact ⟨rfl, rfl, rfl⟩

/-- C10: the mapper substitutes defaults for string fields whenever the
stored value is falsy, not only when absent — a present-but-empty name maps
to "Untitled Recipe" and a present-but-empty userId maps to "unknown" —
whereas a present numeric 0 for cookingTime or servings is preserved. -/
theorem mapper_falsy_string_nullish_number :
    ∀ (recipeId : String) (d : RawDoc),
      (d.name = some "" → (mapRecipe recipeId d).name = "Untitled Recipe") ∧
      (d.userId = some "" → (mapRecipe recipeId d).userId = "unknown") ∧
      (∀ n : Int, d.cookingTime = some n →
        (mapRecipe recipeId d).cookingTime = n) ∧
      (∀ n : Int, d.servings = some n → (mapRecipe recipeId d).servings = n) := by
  intro recipeId d
  refine ⟨?_, ?_, ?_, ?_⟩
  · intro h; simp [mapRecipe, jsStringOr, h]
  · intro h; simp [mapRecipe, jsStringOr, h]
  · intro n h; simp [mapRecipe, h]
  · intro n h; simp [mapRecipe, h]

/-- Witness for C10: a document with empty name and userId and explicit
zeros for cookingTime and servings. -/
theorem mapper_falsy_string_nullish_number_witness :
    (mapRecipe "r2" falsyRawDoc).name = "Untitled Recipe" ∧
    (mapRecipe "r2" falsyRawDoc).userId = "unknown" ∧
    (mapRecipe "r2" falsyRawDoc).cookingTime = 0 ∧
    (mapRecipe "r2" falsyRawDoc).servings = 0 := by
  obtain ⟨h1, h2, h3, h4⟩ := mapper_falsy_string_nullish_number "r2" falsyRawDoc
  exact ⟨h1 rfl, h2 rfl, h3 0 rfl, h4 0 rfl⟩

/-- C6: the Record Mapper is idempotent — mapping the stored-document
equivalent of an already-mapped Recipe yields the identical Recipe — and
deterministic: equal input documents yield equal Recipes. -/
theorem mapper_idempotent_deterministic :
    (∀ (recipeId : String) (d : RawDoc),
      mapRecipe recipeId (docOfRecipe (mapRecipe recipeId d)) =
        mapRecipe recipeId d) ∧
    (∀ (recipeId : String) (d d' : RawDoc),
      d = d' → mapRecipe recipeId d = mapRecipe recipeId d') := by
  constructor
  · intro recipeId d
    simp [mapRecipe, docOfRecipe, jsStringOr_some_self, mapCreatedAt_map_timestamp]
  · intro recipeId d d' h
    rw [h]

/-- Witness for C6: idempotence and determinism instantiated at a document
mixing present, falsy and absent fields. -/
theorem mapper_idempotent_deterministic_witness :
    mapRecipe "r1" (docOfRecipe (mapRecipe "r1" sampleRawDoc)) =
      mapRecipe "r1" sampleRawDoc ∧
    mapRecipe "r1" sampleRawDoc = mapRecipe "r1" sampleRawDoc :=
  ⟨mapper_idempotent_deterministic.1 "r1" sampleRawDoc,
   mapper_idempotent_deterministic.2 "r1" sampleRawDoc sampleRawDoc rfl⟩

/-- C1 counterexample: the claimed equivalence between a validation failure
and a violation of the spec's required-field constraint fails on the code in
both cited respects. `draftNegQty` violates the spec's "quantity > 0" (its
quantity is -1) and `draftBlankStep` violates the spec's "non-empty after
trimming" (its step is a single space), yet neither submission is rejected:
the code only tests truthiness (quantity not 0; step not the empty string). -/
theorem create_validation_spec_cex :
    specRequiredOk draftNegQty = false ∧
    isValidationError (handleSubmit "u1" 0 draftNegQty) = false ∧
    specRequiredOk draftBlankStep = false ∧
    isValidationError (handleSubmit "u1" 0 draftBlankStep) = false := by
  refine ⟨by decide, by decide, by decide, by decide⟩

/-- C1 (amended): `create` fails with a validation error, with nothing sent
to the store, exactly when the code's truthiness constraint is violated —
name empty, or some ingredient with empty name, quantity exactly 0, or empty
unit, or some instruction step equal to the empty string (untrimmed), or
cookingTime or servings absent; in particular a draft with an ingredient of
quantity 0 fails, and one with quantity 5, unit "g", name "Salt" passes, the
inserted document carrying exactly that ingredient entry. -/
theorem create_validation_amended :
    (∀ (uid : String) (now : Int) (d : RecipeDraft),
      isValidationError (handleSubmit uid now d) = amendedRequiredViolated d) ∧
    isValidationError (handleSubmit "u1" 0 draftQtyZero) = true ∧
    handleSubmit "u1" 0 draftSalt = .ok
      { name := "Salted Soup"
        ingredients := [{ name := "Salt", quantity := 5, unit := "g" }]
        instructions := ["Boil water"]
        cookingTime := 10
        servings := 2
        userId := "u1"
        imageUrl := none
        categories := none
        createdAt := 0 } := by
  refine ⟨?_, by decide, rfl⟩
  intro uid now d
  show isValidationError (handleSubmit uid now d) = validationFails d
  cases hv : validationFails d with
  | true => simp [handleSubmit, hv, isValidationError]
  | false => simp [handleSubmit, hv, isValidationError]

/-- C5: for every draft that passes validation, the create path produces a
single insert whose document keeps exactly the draft's validated ingredient
entries (the submit-time ingredient filter removes nothing once validation
passed), filters blank instruction steps, omits `imageUrl` when its trimmed
value is empty and `categories` when the parsed list is empty, stamps
`createdAt` with the time of the call, and carries the caller's uid. -/
theorem create_success_insert_shape :
    ∀ (uid : String) (now : Int) (d : RecipeDraft),
      validationFails d = false →
      handleSubmit uid now d = .ok
        { name := d.recipeName
          ingredients := d.ingredients
          instructions := d.instructions.filter (fun inst => jsTrim inst != "")
          cookingTime := d.cookingTime.getD 0
          servings := d.servings.getD 0
          userId := uid
          imageUrl :=
            if jsTrim d.imageUrl != "" then some (jsTrim d.imageUrl) else none
          categories :=
            if parsedCategories d.categories != [] then
              some (parsedCategories d.categories)
            else none
          createdAt := now } := by
  intro uid now d h
  have hing := filter_ingredients_of_valid d h
  simp only [handleSubmit, h, Bool.false_eq_true, if_false, hing]

/-- Witness for C5: the Salt draft passes validation and its insert carries
exactly the ingredient quantity 5, unit "g", name "Salt". -/
theorem create_success_insert_shape_witness :
    validationFails draftSalt = false ∧
    handleSubmit "u2" 7 draftSalt = .ok
      { name := "Salted Soup"
        ingredients := [{ name := "Salt", quantity := 5, unit := "g" }]
        instructions := ["Boil water"]
        cookingTime := 10
        servings := 2
        userId := "u2"
        imageUrl := none
        categories := none
        createdAt := 7 } :=
  ⟨rfl, create_success_insert_shape "u2" 7 draftSalt rfl⟩

/-- C3: `getById` surfaces the not-found outcome exactly when the store
reports the document absent, and the repository-level failure exactly when
the store call fails on connectivity — an absent document never becomes a
repository failure. -/
theorem getById_not_found_vs_repository :
    ∀ (recipeId : String) (res : GetDocResult),
      (getById recipeId res = .notFoundError ↔ res = .absent) ∧
      (getById recipeId res = .repositoryError ↔ res = .storeFailure) := by
  intro recipeId res
  cases res <;> simp [getById]

/-- C4: when account creation succeeds (the provider begins a session for
the new identity) and the subsequent profile-record write fails, `signup`
propagates the failure to its caller while the provider remains
authenticated for the new identity — no code path rolls the session back. -/
theorem signup_profile_failure_keeps_session :
    ∀ (st : ProviderState) (user : FirebaseUser)
      (w : String → Except StoreFailure Unit) (e : StoreFailure),
      w user.uid = .error e →
      signup st (.ok user) w =
        ({ currentSession := some user.uid }, .error (.profileWrite e)) := by
  intro st user w e h
  simp [signup, h]

/-- Witness for C4: signing up "a@b.com" with a profile write that fails on
a simulated network failure leaves the provider session created. -/
theorem signup_profile_failure_keeps_session_witness :
    signup { currentSession := none }
        (.ok { uid := "u1", email := "a@b.com" })
        (fun _ => .error { message := "network failure" }) =
      ({ currentSession := some "u1" },
       .error (.profileWrite { message := "network failure" })) :=
  signup_profile_failure_keeps_session { currentSession := none }
    { uid := "u1", email := "a@b.com" }
    (fun _ => .error { message := "network failure" })
    { message := "network failure" } rfl

/-- C8: the session store starts unresolved (loading true, no session, and
consumers cannot read an anonymous state off it); the first provider
callback resolves it to anonymous or authenticated according to the
delivered user; and after the first callback every reachable state is
anonymous or authenticated — the store never returns to unresolved. -/
theorem session_store_resolution :
    sessionPhase (runAuthStore []) = .unresolved ∧
    initialAuthStore.loading = true ∧
    initialAuthStore.currentUser = none ∧
    (∀ u : Option String,
      sessionPhase (runAuthStore [u]) =
        match u with
        | none => .anonymous
        | some uid => .authenticated uid) ∧
    (∀ (u : Option String) (es : List (Option String)),
      sessionPhase (runAuthStore (u :: es)) = .anonymous ∨
      ∃ uid, sessionPhase (runAuthStore (u :: es)) = .authenticated uid) := by
  refine ⟨rfl, rfl, rfl, ?_, ?_⟩
  · intro u
    cases u <;> rfl
  · intro u es
    have h : (runAuthStore (u :: es)).loading = false := by
      have he : runAuthStore (u :: es) =
          es.foldl onSessionChange (onSessionChange initialAuthStore u) := rfl
      rw [he]
      exact foldl_onSessionChange_loading es _ rfl
    cases hc : (runAuthStore (u :: es)).currentUser with
    | none =>
        left
        simp [sessionPhase, h, hc]
    | some uid =>
        right
        exact ⟨uid, by simp [sessionPhase, h, hc]⟩

/-- C9: the edit affordance on the recipe detail view is offered exactly
when a session identity is present and its uid equals the recipe's
`userId`. -/
theorem edit_affordance_iff_owner :
    ∀ (currentUser : Option FirebaseUser) (r : Recipe),
      isOwner currentUser r = true ↔
        ∃ u, currentUser = some u ∧ u.uid = r.userId := by
  intro cu r
  cases cu with
  | none => simp [isOwner]
  | some u => simp [isOwner]

end RecipeApp
